import Mathlib

/-
Shallow embedding of the rmbs_evaluator repository (a multi-criteria grading
harness for candidate credit-rating implementations), together with proofs
about the claims of its specification.

The embedding mirrors, file by file:
  - evaluators/algorithm_evaluator.py   (correctness checker + entry-point resolver)
  - evaluators/performance_evaluator.py (performance checker)
  - evaluators/quality_evaluator.py     (static quality checker, scoring part)
  - evaluators/documentation_evaluator.py (README scoring, full text analysis)
  - evaluator.py                        (weights, overall score, batch loop)
  - test_cases.py                       (fixture structure)

Python floats are modelled as rationals (ℚ); Python values that candidate
functions consume and return are modelled by type parameters `I` (inputs) and
`V` (comparable return values, with decidable equality mirroring Python `==`).
A call into untrusted candidate code either returns a value or raises.
-/

namespace RMBSEval

variable {I : Type} {V : Type}

/-- Result of calling a candidate callable: it returns a value or raises. -/
inductive CallRes (V : Type) where
  | ok (v : V)
  | exn
deriving DecidableEq

/-- One fixture of test_cases.py: a name, an input and an expected output
(`expected_output`; `None` is a value of `V` chosen by the instantiation). -/
structure Fixture (I V : Type) where
  name : String
  input : I
  expected : V

/-- A loaded candidate module: its callable attributes, as (name, callable)
pairs listed in declaration order within the source file.  Non-callable
attributes are omitted because every enumeration in the source filters on
`callable(attr)`. -/
structure PyModule (I V : Type) where
  attrs : List (String × (I → CallRes V))

/-- Python `getattr` on the module namespace (names are unique in a module
namespace, so first match is the binding). -/
def getAttr (m : PyModule I V) (n : String) : Option (I → CallRes V) :=
  m.attrs.lookup n

/-- Python `attr_name.startswith('_')`. -/
def underscoreName (n : String) : Bool :=
  match n.toList with
  | c :: _ => c = '_'
  | [] => false

/-- Code-point comparison of characters, as Python compares strings. -/
def charLtB (a b : Char) : Bool := a.toNat < b.toNat

/-- Lexicographic strict order on strings by code points (Python `<`). -/
def strLtB : List Char → List Char → Bool
  | [], [] => false
  | [], _ :: _ => true
  | _ :: _, [] => false
  | a :: as, b :: bs =>
    if charLtB a b then true else if charLtB b a then false else strLtB as bs

/-- Non-strict string order used for ascending sorting. -/
def strLeB (a b : String) : Bool := ! strLtB b.toList a.toList

/-- Insert a name into an ascending-sorted list of names. -/
def insertName (s : String) : List String → List String
  | [] => [s]
  | t :: ts => if strLeB s t then s :: t :: ts else t :: insertName s ts

/-- Ascending sort of attribute names: `dir(module)` returns the module's
attribute names sorted alphabetically (Python `sorted`). -/
def sortNames : List String → List String
  | [] => []
  | s :: ss => insertName s (sortNames ss)

/-- Names produced by `dir(module)` for the loaded candidate module. -/
def dirNames (m : PyModule I V) : List String :=
  sortNames (m.attrs.map Prod.fst)

/-- Callables visited by the fallback loop `for attr_name in dir(module)`
with the `callable(attr) and not attr_name.startswith('_')` filter, in the
order the loop visits them (i.e. `dir` order). -/
def fallbackCallables (m : PyModule I V) : List (String × (I → CallRes V)) :=
  (dirNames m).filterMap fun n =>
    if underscoreName n then none
    else (getAttr m n).map fun f => (n, f)

/-- Try each candidate callable on the probe input in order; a callable that
raises is skipped (`except Exception: continue`); the first that returns
without raising wins (`break`). -/
def tryCallables (cs : List (String × (I → CallRes V))) (x : I) :
    Option (String × V) :=
  match cs with
  | [] => none
  | (n, f) :: rest =>
    match f x with
    | .ok v => some (n, v)
    | .exn => tryCallables rest x

/-- The fallback entry-point discovery used by both algorithm_evaluator.py
(lines 60-84) and performance_evaluator.py (lines 48-63) when the module has
no `calculate_credit_rating`: first non-underscore callable, in `dir` order,
whose call on the probe input returns without raising. -/
def resolveFallback (m : PyModule I V) (x : I) : Option (String × V) :=
  tryCallables (fallbackCallables m) x

/-- Modelled from the spec: the resolver as claim C4 words it, enumerating the
non-underscore callables in their declaration order within the source file
(rather than in `dir` order).  Used only to compare against
`resolveFallback`. -/
def resolveDeclaredOrder (m : PyModule I V) (x : I) : Option (String × V) :=
  tryCallables (m.attrs.filter fun p => ! underscoreName p.1) x

/-- Per-fixture outcome recorded by the correctness loop of
algorithm_evaluator.py; constructors mirror the note strings appended to
`test_notes` (the `...Via` forms carry the discovered function name). -/
inductive FixtureOutcome (V : Type) where
  | edgeHandled
  | edgeHandledVia (fn : String)
  | correct (r : V)
  | correctVia (fn : String) (r : V)
  | incorrect (r : V)
  | incorrectVia (fn : String) (r : V)
  | errored
  | noFunction
deriving DecidableEq

/-- Whether an outcome increments `correct_test_cases`. -/
def outcomePassed : FixtureOutcome V → Bool
  | .edgeHandled => true
  | .edgeHandledVia _ => true
  | .correct _ => true
  | .correctVia _ _ => true
  | _ => false

/-- One iteration of the correctness loop of algorithm_evaluator.py
(lines 46-86) on one fixture: prefer `calculate_credit_rating` when the
module has it (a raise there is caught by the per-fixture handler and
recorded as an error); otherwise fall back to discovery; the fixture named
`edge_case_empty` passes as soon as the call completes, all others pass
exactly when the result equals `expected_output`. -/
def runFixture [DecidableEq V] (m : PyModule I V) (fx : Fixture I V) :
    FixtureOutcome V :=
  match getAttr m "calculate_credit_rating" with
  | some f =>
    match f fx.input with
    | .ok r =>
      if fx.name = "edge_case_empty" then .edgeHandled
      else if r = fx.expected then .correct r
      else .incorrect r
    | .exn => .errored
  | none =>
    match resolveFallback m fx.input with
    | some (n, r) =>
      if fx.name = "edge_case_empty" then .edgeHandledVia n
      else if r = fx.expected then .correctVia n r
      else .incorrectVia n r
    | none => .noFunction

/-- The fixtures the correctness loop iterates over: every test case except
the one named `large_case` (performance-only). -/
def algFixtures (cases : List (Fixture I V)) : List (Fixture I V) :=
  cases.filter fun fx => fx.name ≠ "large_case"

/-- One outcome per non-performance fixture, in order (the loop never aborts:
each iteration records exactly one outcome). -/
def algOutcomes [DecidableEq V] (m : PyModule I V) (cases : List (Fixture I V)) :
    List (FixtureOutcome V) :=
  (algFixtures cases).map (runFixture m)

/-- The correctness score of algorithm_evaluator.py line 93:
`(correct_test_cases / total_test_cases) * 5 if total_test_cases > 0 else 0`. -/
def algScore [DecidableEq V] (m : PyModule I V) (cases : List (Fixture I V)) : ℚ :=
  let total := (algFixtures cases).length
  if total = 0 then 0
  else (((algOutcomes m cases).countP outcomePassed : ℚ) / total) * 5

/-- Top of evaluate_algorithm: when the candidate module cannot be loaded the
function returns score 0 with a descriptive note (line 28 for a failed spec;
the outer `except` path returns 0 with an error note likewise, both modelled
by `none`); otherwise the correctness loop runs. -/
def evaluateAlgorithm [DecidableEq V] (load : Option (PyModule I V))
    (cases : List (Fixture I V)) : ℚ × String :=
  match load with
  | none => (0, "Could not load credit_rating.py")
  | some m => (algScore m cases, "evaluated")

/-- Score bucketing of performance_evaluator.py lines 69-88, as a function of
the measured wall-clock time (seconds, modelled in ℚ):
thresholds 0.1 / 0.5 / 2.0, then `max(1.0, 3.0 - (execution_time - 2.0) / 2)`. -/
def perfScore (t : ℚ) : ℚ :=
  if t < 1 / 10 then 5
  else if t < 1 / 2 then 4
  else if t < 2 then 3
  else max 1 (3 - (t - 2) / 2)

/-- evaluate_performance of performance_evaluator.py as a function of the
loaded module, the performance-only input, and the elapsed time the timed run
would measure.  When `calculate_credit_rating` exists its warm-up call is not
guarded, so a raise there propagates to the outer `except`, which returns 0;
without it the fallback discovery skips raising callables and
`execution_time` stays `None` (score 0, line 92) when none succeeds.
Candidate calls are modelled as deterministic, so the timed repeat of a
successful warm-up call succeeds as well. -/
def evaluatePerformance (load : Option (PyModule I V)) (x : I) (t : ℚ) : ℚ :=
  match load with
  | none => 0
  | some m =>
    match getAttr m "calculate_credit_rating" with
    | some f =>
      match f x with
      | .ok _ => perfScore t
      | .exn => 0
    | none =>
      match resolveFallback m x with
      | some _ => perfScore t
      | none => 0

/-- Six component scores of one repository, as produced by the individual
evaluators inside evaluate_repo. -/
structure ComponentScores where
  structureScore : ℚ
  testScore : ℚ
  codeQualityScore : ℚ
  algorithmScore : ℚ
  performanceScore : ℚ
  documentationScore : ℚ
deriving DecidableEq

/-- Lookup in the `scores` dict of evaluator.py lines 150-157. -/
def scoreOf (s : ComponentScores) (k : String) : ℚ :=
  if k = "structure" then s.structureScore
  else if k = "tests" then s.testScore
  else if k = "code_quality" then s.codeQualityScore
  else if k = "algorithm" then s.algorithmScore
  else if k = "performance" then s.performanceScore
  else if k = "documentation" then s.documentationScore
  else 0

/-- The `weights` dict of evaluator.py lines 141-148, in its insertion
order. -/
def weightTable : List (String × ℚ) :=
  [("structure", 1 / 10), ("tests", 1 / 5), ("code_quality", 1 / 5),
   ("algorithm", 3 / 10), ("performance", 1 / 10), ("documentation", 1 / 10)]

/-- evaluator.py line 159:
`overall_score = sum(scores[k] * weights[k] for k in weights)`. -/
def overallScore (s : ComponentScores) : ℚ :=
  (weightTable.map fun kw => scoreOf s kw.1 * kw.2).sum

/-- The record evaluate_repo returns for one repository (score fields; note
strings and test coverage are carried unchanged from the collaborators and
are irrelevant to the claims about scores). -/
structure RepoRecord where
  repoName : String
  overall : ℚ
  components : ComponentScores

/-- Tail of evaluate_repo (evaluator.py lines 140-177): combine the six
component scores into the record with the weighted overall score. -/
def evaluateRepo (name : String) (s : ComponentScores) : RepoRecord :=
  { repoName := name, overall := overallScore s, components := s }

/-- One element of the orchestrator's `results` list: either a full
evaluation record or the failure record
`{"repo_name": ..., "error": str(exc), "overall_score": 0}`. -/
structure BatchRecord where
  repoName : String
  overall : ℚ
  error : Option String
deriving DecidableEq

/-- Evaluation of one repository as seen by the batch loop: it either
produces a record or raises with a message. -/
def EvalFun : Type := String → Except String BatchRecord

/-- The `try/except` around one repository's evaluation (evaluator.py
lines 78-90 in serial mode, and `_evaluate_repo_wrapper` lines 99-110 in
parallel mode): an escaping exception becomes a zero-scored record carrying
the failure description. -/
def recordOfOutcome (name : String) (o : Except String BatchRecord) :
    BatchRecord :=
  match o with
  | .ok r => r
  | .error e => { repoName := name, overall := 0, error := some e }

/-- Serial branch of evaluate_all_repos (evaluator.py lines 76-90): every
repository directory contributes exactly one appended record. -/
def evaluateAllSeq (repos : List String) (ev : EvalFun) : List BatchRecord :=
  repos.map fun r => recordOfOutcome r (ev r)

/-- Parallel branch of evaluate_all_repos (evaluator.py lines 51-74): each
repository runs through `_evaluate_repo_wrapper`; `as_completed` delivers the
futures in some completion order, modelled by `order`, a permutation of the
submitted repositories; the loop's own `try/except` would convert even an
infrastructure failure of `future.result()` into a zero record, which
`recordOfOutcome` covers as well. -/
def evaluateAllPar (order : List String) (ev : EvalFun) : List BatchRecord :=
  order.map fun r => recordOfOutcome r (ev r)

/-- Metrics the quality evaluator's line scan (quality_evaluator.py
lines 32-108) extracts from credit_rating.py before any scoring. -/
structure QualityMetrics where
  totalLines : ℕ
  commentLines : ℕ
  functionCount : ℕ
  classCount : ℕ
  docstringCount : ℕ
  avgFunctionLength : ℚ
  hasMainFunction : Bool
deriving DecidableEq

/-- Documentation sub-score (quality_evaluator.py lines 129-144, "out of
2.5"): docstring ratio weighted 1.5, plus 1.0 for a comment ratio in
[5%, 20%], else 0.5 when any comments exist. -/
def qDocScore (qm : QualityMetrics) : ℚ :=
  (if 0 < qm.functionCount + qm.classCount then
      min 1 ((qm.docstringCount : ℚ) / (qm.functionCount + qm.classCount)) * (3 / 2)
    else 0)
  + (if 0 < qm.totalLines then
      (let ratio : ℚ := (qm.commentLines : ℚ) / qm.totalLines
       if 1 / 20 ≤ ratio ∧ ratio ≤ 1 / 5 then 1
       else if 0 < ratio then 1 / 2
       else 0)
    else 0)

/-- Validation sub-score (quality_evaluator.py lines 110-127): 0.5 per
pattern of `validation_patterns` that `re.search` finds in the source text,
then capped at 2.5.  The eight boolean search results are the input. -/
def qValidationScore (found : List Bool) : ℚ :=
  min (5 / 2) ((found.countP id : ℚ) * (1 / 2))

/-- Complexity sub-score (quality_evaluator.py lines 146-166, "out of 2.5"):
function-length bucket, organization bonus, entry-point bonus. -/
def qComplexityScore (qm : QualityMetrics) : ℚ :=
  (if 5 ≤ qm.avgFunctionLength ∧ qm.avgFunctionLength ≤ 20 then 5 / 4
    else if qm.avgFunctionLength < 5 then 1 / 2
    else max 0 (5 / 4 - (qm.avgFunctionLength - 20) / 100))
  + (if 0 < qm.classCount ∧ 3 ≤ qm.functionCount then 3 / 4
    else if 3 ≤ qm.functionCount then 1 / 2
    else 0)
  + (if qm.hasMainFunction then 1 / 2 else 0)

/-- quality_evaluator.py line 169: `quality_score = doc_score +
metrics['validation_score']`; the complexity sub-score is computed just above
it but never added in. -/
def evaluateCodeQuality (qm : QualityMetrics) (found : List Bool) : ℚ :=
  let complexity := qComplexityScore qm
  let _ := complexity
  qDocScore qm + qValidationScore found

/-- Characters of Python's regex class `\s` (ASCII range, which is all the
analysed texts use). -/
def pyIsSpace (c : Char) : Bool :=
  c = ' ' || c = '\t' || c = '\n' || c = '\x0d' || c = '\x0b' || c = '\x0c'

/-- Python `content.split('\n')`. -/
def splitNl : List Char → List Char → List (List Char)
  | [], acc => [acc.reverse]
  | c :: rest, acc =>
    if c = '\n' then acc.reverse :: splitNl rest [] else splitNl rest (c :: acc)

/-- Whether one line matches the header regex `^#+\s+.+$` (applied with
re.MULTILINE in documentation_evaluator.py line 43, hence per line): one or
more `#`, then at least one whitespace character, then at least one more
character. -/
def headerLineB (l : List Char) : Bool :=
  let hashes := l.takeWhile (· = '#')
  let rest := l.drop hashes.length
  match hashes, rest with
  | _ :: _, c :: _ :: _ => pyIsSpace c
  | _, _ => false

/-- Whether one line matches the list-item regex `^\s*[-*]\s+.+$`
(documentation_evaluator.py line 68). -/
def listLineB (l : List Char) : Bool :=
  match l.dropWhile pyIsSpace with
  | m :: c :: _ :: _ => (m = '-' || m = '*') && pyIsSpace c
  | _ => false

/-- Number of triple-backtick fences in a left-to-right non-overlapping
scan. -/
def countFences : List Char → ℕ
  | '\x60' :: '\x60' :: '\x60' :: rest => 1 + countFences rest
  | _ :: rest => countFences rest
  | [] => 0

/-- Matches of `re.findall(r'```[\w]*[\s\S]*?```', content)`
(documentation_evaluator.py line 47): each match runs from an opening fence
to the next fence (word characters never contain a backtick, and the lazy
middle stops at the earliest closing fence), so the count pairs up the
fences of a left-to-right scan. -/
def countCodeBlocks (content : List Char) : ℕ :=
  countFences content / 2

/-- Python substring test `needle in haystack` for a non-empty needle. -/
def containsChars (h n : List Char) : Bool :=
  n.isPrefixOf h ||
    match h with
    | [] => false
    | _ :: t => containsChars t n

/-- Whether any of the search terms occurs in the (already lowercased)
content, as in `any(term in content.lower() for term in [...])`. -/
def anyTerm (lc : List Char) (ts : List String) : Bool :=
  ts.any fun t => containsChars lc t.toList

/-- The metrics documentation_evaluator.py computes from the README text
(lines 29-71) before scoring. -/
structure DocMetrics where
  length : ℕ
  sections : ℕ
  codeBlocks : ℕ
  listLines : ℕ
  hasInstallation : Bool
  hasUsage : Bool
  hasExamples : Bool
  hasArchitecture : Bool
  hasTesting : Bool
deriving DecidableEq

/-- Text analysis of evaluate_documentation on the README content. -/
def docMetrics (content : String) : DocMetrics :=
  let cs := content.toList
  let lc := cs.map Char.toLower
  let lines := splitNl cs []
  { length := cs.length
    sections := (lines.filter headerLineB).length
    codeBlocks := countCodeBlocks cs
    listLines := (lines.filter listLineB).length
    hasInstallation := anyTerm lc ["installation", "setup", "getting started"]
    hasUsage := anyTerm lc ["usage", "how to use", "user guide"]
    hasExamples :=
      anyTerm lc ["example", "sample", "demonstration", "demo"]
        || containsChars cs "```".toList
    hasArchitecture :=
      anyTerm lc ["architecture", "design", "structure", "implementation", "approach"]
    hasTesting := anyTerm lc ["test", "coverage", "quality"] }

/-- Python bool-to-int coercion used by `sum([...])`. -/
def boolToNat (b : Bool) : ℕ := if b then 1 else 0

/-- Content completeness score (documentation_evaluator.py lines 75-82):
0.6 per key section found. -/
def docContentScore (dm : DocMetrics) : ℚ :=
  ((boolToNat dm.hasInstallation + boolToNat dm.hasUsage + boolToNat dm.hasExamples
      + boolToNat dm.hasArchitecture + boolToNat dm.hasTesting : ℕ) : ℚ) * (3 / 5)

/-- Length score (documentation_evaluator.py lines 84-92). -/
def docLengthScore (dm : DocMetrics) : ℚ :=
  if dm.length < 200 then (dm.length : ℚ) / 200 * (1 / 2)
  else if dm.length ≤ 3000 then 1
  else max (1 / 2) (1 - ((dm.length : ℚ) - 3000) / 10000)

/-- The `formatting_quality` accumulator (documentation_evaluator.py
lines 60-71), returned unchanged as `formatting_score` at line 95. -/
def docFormattingScore (dm : DocMetrics) : ℚ :=
  (if 3 ≤ dm.sections then 1 else 0)
  + (if 1 ≤ dm.codeBlocks then 1 / 2 else 0)
  + (if 2 < dm.listLines then 1 / 2 else 0)

/-- documentation_evaluator.py line 98:
`total_score = content_score + length_score + formatting_score`. -/
def docTotalScore (dm : DocMetrics) : ℚ :=
  docContentScore dm + docLengthScore dm + docFormattingScore dm

/-- evaluate_documentation: 0 when README.md is absent (line 23; the
`except` path returns 0 likewise), otherwise the computed total score. -/
def evaluateDocumentation (readme : Option String) : ℚ :=
  match readme with
  | none => 0
  | some content => docTotalScore (docMetrics content)

/-- State of `sys.path` left by evaluate_algorithm / evaluate_performance
(algorithm_evaluator.py lines 24, 28, 88-90, 99-101; performance_evaluator.py
lines 25, 29, 65-67, 98-100).  Both functions first insert the repository
path at index 0; when the module spec or loader is missing they return at
once with no cleanup; otherwise candidate code runs (it may itself mutate
`sys.path`, modelled by `execEffect`) and, on the normal return and on the
caught-exception return alike, the head of `sys.path` is popped exactly when
it still equals the inserted repository path. -/
def sysPathAfterEval (orig : List String) (repo : String) (specOk : Bool)
    (execEffect : List String → List String) : List String :=
  let inserted := repo :: orig
  if specOk then
    let afterRun := execEffect inserted
    match afterRun with
    | [] => afterRun
    | h :: t => if h = repo then t else afterRun
  else inserted

/-- The value a call produces once raising is accounted for: `some v` when
the preferred or discovered entry point returns `v`, `none` when the
canonical function raises or no fallback callable succeeds. -/
def algCallResult (m : PyModule I V) (x : I) : Option V :=
  match getAttr m "calculate_credit_rating" with
  | some f =>
    match f x with
    | .ok v => some v
    | .exn => none
  | none => (resolveFallback m x).map Prod.snd

/-- The five test cases of test_cases.py, with the mortgage-pool inputs
abstracted to identifiers 0-4 (their structure is opaque to every claim) and
the expected outputs as in the source: "BBB", "C", "AAA", `None`, `None`. -/
def rmbsFixtures : List (Fixture ℕ (Option String)) :=
  [⟨"basic_case", 0, some "BBB"⟩,
   ⟨"high_risk_case", 1, some "C"⟩,
   ⟨"low_risk_case", 2, some "AAA"⟩,
   ⟨"edge_case_empty", 3, none⟩,
   ⟨"large_case", 4, none⟩]

/-- A candidate entry point that answers every fixture as expected. -/
def goodRating : ℕ → CallRes (Option String)
  | 0 => .ok (some "BBB")
  | 1 => .ok (some "C")
  | 2 => .ok (some "AAA")
  | _ => .ok none

/-- A fully compliant candidate module exposing `calculate_credit_rating`. -/
def goodModule : PyModule ℕ (Option String) :=
  ⟨[("calculate_credit_rating", goodRating)]⟩

/-- Same candidate, except that the call on the empty-pool fixture input
raises. -/
def edgeRaisingRating : ℕ → CallRes (Option String)
  | 3 => .exn
  | n => goodRating n

/-- A candidate module whose function raises on the empty-mortgage-list
fixture only. -/
def edgeRaisingModule : PyModule ℕ (Option String) :=
  ⟨[("calculate_credit_rating", edgeRaisingRating)]⟩

/-- A candidate module with no canonical entry point and two succeeding
callables whose declaration order (zeta before alpha) differs from their
alphabetical order. -/
def moduleC4 : PyModule Unit String :=
  ⟨[("zeta_rating", fun _ => .ok "A"), ("alpha_rating", fun _ => .ok "B")]⟩

/-- A candidate module exposing nothing callable. -/
def emptyModule : PyModule Unit String := ⟨[]⟩

/-- A concrete README text (395 characters): three headers, one fenced code
block, three list items, and the key terms installation / usage / example /
design / test. -/
def readmeX : String :=
  "# Installation\n\nUse pip to install the package and run the setup script to get started.\n\n# Usage\n\nRun the main script on a pool of mortgages to produce a credit rating.\nThis design keeps the overall structure of the approach simple.\n\n# Example\n\nThe test suite covers the rating behaviour end to end.\n\n- rate a small pool\n- rate a large pool\n- rate an empty pool\n\n```python\nprint(rate(pool))\n```\n"

/-- The empty/edge fixture of test_cases.py, by itself. -/
def edgeFixture : Fixture ℕ (Option String) := ⟨"edge_case_empty", 3, none⟩

/-! Helper lemmas (shared; none of them is a claim theorem). -/

theorem runFixture_passed_iff [DecidableEq V] (m : PyModule I V) (fx : Fixture I V)
    (h : fx.name ≠ "edge_case_empty") :
    outcomePassed (runFixture m fx) = true
      ↔ algCallResult m fx.input = some fx.expected := by
  unfold runFixture algCallResult
  cases hg : getAttr m "calculate_credit_rating" with
  | some f =>
    cases hf : f fx.input with
    | ok r =>
      by_cases hr : r = fx.expected <;> simp [h, hf, hr, outcomePassed]
    | exn => simp [hf, outcomePassed]
  | none =>
    cases hr : resolveFallback m fx.input with
    | some p =>
      obtain ⟨n, r⟩ := p
      by_cases he : r = fx.expected <;> simp [h, hr, he, outcomePassed]
    | none => simp [hr, outcomePassed]

theorem runFixture_edge_isSome [DecidableEq V] (m : PyModule I V) (fx : Fixture I V)
    (h : fx.name = "edge_case_empty") :
    outcomePassed (runFixture m fx) = (algCallResult m fx.input).isSome := by
  unfold runFixture algCallResult
  cases hg : getAttr m "calculate_credit_rating" with
  | some f =>
    cases hf : f fx.input with
    | ok r => simp [h, hf, outcomePassed]
    | exn => simp [hf, outcomePassed]
  | none =>
    cases hr : resolveFallback m fx.input with
    | some p =>
      obtain ⟨n, r⟩ := p
      simp [h, hr, outcomePassed]
    | none => simp [hr, outcomePassed]

theorem perfScore_ge_one (t : ℚ) : 1 ≤ perfScore t := by
  unfold perfScore
  split_ifs with h1 h2 h3
  · norm_num
  · norm_num
  · norm_num
  · exact le_max_left 1 _

theorem perfScore_antitone {t₁ t₂ : ℚ} (h : t₁ ≤ t₂) :
    perfScore t₂ ≤ perfScore t₁ := by
  unfold perfScore
  split_ifs <;>
    first
      | linarith
      | (apply max_le <;> linarith)
      | (exact max_le_max (le_refl 1) (by linarith))

theorem countP_flip {α : Type} (p : α → Bool) :
    ∀ (l₁ l₂ : List α) (i : ℕ), l₁.length = l₂.length → i < l₁.length →
      (∀ j, j ≠ i → l₁[j]? = l₂[j]?) →
      (∀ a, l₁[i]? = some a → p a = true) →
      (∀ b, l₂[i]? = some b → p b = false) →
      l₂.countP p + 1 = l₁.countP p := by
  intro l₁
  induction l₁ with
  | nil => intro l₂ i _ hi; exact absurd hi (by simp)
  | cons a t₁ ih =>
    intro l₂ i hlen hi hagree hp hq
    cases l₂ with
    | nil => simp at hlen
    | cons b t₂ =>
      cases i with
      | zero =>
        have ha : p a = true := hp a (by simp)
        have hb : p b = false := hq b (by simp)
        have ht : t₁ = t₂ := by
          apply List.ext_getElem?
          intro j
          simpa using hagree (j + 1) (by omega)
        subst ht
        simp [List.countP_cons, ha, hb]
      | succ k =>
        have hab : a = b := by
          simpa using hagree 0 (by omega)
        subst hab
        have hrec : t₂.countP p + 1 = t₁.countP p := by
          apply ih t₂ k (by simpa using hlen) (by simpa using hi)
          · intro j hj
            simpa using hagree (j + 1) (by omega)
          · intro x hx
            exact hp x (by simpa using hx)
          · intro x hx
            exact hq x (by simpa using hx)
        simp only [List.countP_cons]
        omega

theorem tryCallables_eq_none (cs : List (String × (I → CallRes V))) (x : I)
    (h : tryCallables cs x = none) : ∀ p ∈ cs, p.2 x = CallRes.exn := by
  induction cs with
  | nil => simp
  | cons c rest ih =>
    obtain ⟨n, f⟩ := c
    unfold tryCallables at h
    cases hf : f x with
    | ok v => rw [hf] at h; simp at h
    | exn =>
      rw [hf] at h
      intro p hp
      rcases List.mem_cons.mp hp with hp | hp
      · subst hp; exact hf
      · exact ih h p hp

theorem tryCallables_eq_some (cs : List (String × (I → CallRes V))) (x : I)
    (n : String) (v : V) (h : tryCallables cs x = some (n, v)) :
    ∃ pre f post, cs = pre ++ (n, f) :: post ∧ f x = CallRes.ok v
      ∧ ∀ p ∈ pre, p.2 x = CallRes.exn := by
  induction cs with
  | nil => simp [tryCallables] at h
  | cons c rest ih =>
    obtain ⟨n', f'⟩ := c
    unfold tryCallables at h
    cases hf : f' x with
    | ok w =>
      rw [hf] at h
      simp only [Option.some.injEq, Prod.mk.injEq] at h
      obtain ⟨hn, hw⟩ := h
      subst hn
      exact ⟨[], f', rest, by simp, by rw [hf, hw], by simp⟩
    | exn =>
      rw [hf] at h
      obtain ⟨pre, f, post, hcs, hok, hpre⟩ := ih h
      refine ⟨(n', f') :: pre, f, post, by simp [hcs], hok, ?_⟩
      intro p hp
      rcases List.mem_cons.mp hp with hp | hp
      · subst hp; exact hf
      · exact hpre p hp

theorem mem_fallbackCallables (m : PyModule I V) (p : String × (I → CallRes V))
    (hp : p ∈ fallbackCallables m) :
    underscoreName p.1 = false ∧ getAttr m p.1 = some p.2 := by
  unfold fallbackCallables at hp
  rcases List.mem_filterMap.mp hp with ⟨n, _, hmap⟩
  by_cases hu : underscoreName n
  · simp [hu] at hmap
  · rw [if_neg hu] at hmap
    cases hg : getAttr m n with
    | none => rw [hg] at hmap; simp at hmap
    | some f =>
      rw [hg] at hmap
      simp only [Option.map_some', Option.some.injEq] at hmap
      subst hmap
      exact ⟨Bool.not_eq_true _ ▸ eq_false_of_ne_true hu, hg⟩

/-! Claim theorems. -/

/-- C2: for every repository, the overall_score computed by evaluate_repo is
the dot product of the six component scores with the weight vector
(structure 0.1, tests 0.2, code_quality 0.2, algorithm 0.3, performance 0.1,
documentation 0.1), and these weights sum to 1. -/
theorem C2_overall_weighted_sum (name : String) (s : ComponentScores) :
    (evaluateRepo name s).overall
        = s.structureScore * (1 / 10) + s.testScore * (1 / 5)
          + s.codeQualityScore * (1 / 5) + s.algorithmScore * (3 / 10)
          + s.performanceScore * (1 / 10) + s.documentationScore * (1 / 10)
      ∧ (weightTable.map Prod.snd).sum = 1 := by
  constructor
  · simp [evaluateRepo, overallScore, weightTable, scoreOf]
    ring
  · norm_num [weightTable]

/-- Witness for C2 at concrete component scores. -/
theorem C2_witness :
    (evaluateRepo "candidate_repo" ⟨1, 2, 3, 4, 5, 0⟩).overall
        = (1 : ℚ) * (1 / 10) + 2 * (1 / 5) + 3 * (1 / 5) + 4 * (3 / 10)
          + 5 * (1 / 10) + 0 * (1 / 10)
    ∧ (weightTable.map Prod.snd).sum = 1 :=
  C2_overall_weighted_sum "candidate_repo" ⟨1, 2, 3, 4, 5, 0⟩

/-- C5: the performance score is 5.0 below 0.1s, 4.0 on [0.1, 0.5), 3.0 on
[0.5, 2.0), and max(1.0, 3.0 - (t - 2.0)/2) from 2.0s on; it is monotonically
non-increasing in the measured time with floor 1.0 for any completing call,
and exactly 0 when no entry point resolves (and when the module fails to
load). -/
theorem C5_performance_score_buckets :
    (∀ t : ℚ, t < 1 / 10 → perfScore t = 5)
    ∧ (∀ t : ℚ, 1 / 10 ≤ t → t < 1 / 2 → perfScore t = 4)
    ∧ (∀ t : ℚ, 1 / 2 ≤ t → t < 2 → perfScore t = 3)
    ∧ (∀ t : ℚ, 2 ≤ t → perfScore t = max 1 (3 - (t - 2) / 2))
    ∧ (∀ t₁ t₂ : ℚ, t₁ ≤ t₂ → perfScore t₂ ≤ perfScore t₁)
    ∧ (∀ t : ℚ, 1 ≤ perfScore t)
    ∧ (∀ (m : PyModule I V) (x : I) (t : ℚ),
        getAttr m "calculate_credit_rating" = none →
        resolveFallback m x = none →
        evaluatePerformance (some m) x t = 0)
    ∧ (∀ (x : I) (t : ℚ), evaluatePerformance (none : Option (PyModule I V)) x t = 0) := by
  refine ⟨?_, ?_, ?_, ?_, fun t₁ t₂ h => perfScore_antitone h, perfScore_ge_one, ?_, ?_⟩
  · intro t h
    unfold perfScore
    split_ifs <;> first | rfl | linarith
  · intro t h1 h2
    unfold perfScore
    split_ifs <;> first | rfl | linarith
  · intro t h1 h2
    unfold perfScore
    split_ifs <;> first | rfl | linarith
  · intro t h
    unfold perfScore
    split_ifs <;> first | rfl | linarith
  · intro m x t h1 h2
    simp [evaluatePerformance, h1, h2]
  · intro x t
    simp [evaluatePerformance]

/-- Witness for C5 at concrete inputs: the first bucket at t = 0.05, and the
zero score for a module with no resolvable entry point. -/
theorem C5_witness :
    ((1 : ℚ) / 20 < 1 / 10 ∧ perfScore (1 / 20) = 5)
    ∧ (getAttr emptyModule "calculate_credit_rating" = none
        ∧ resolveFallback emptyModule () = none
        ∧ evaluatePerformance (some emptyModule) () 1 = 0) :=
  ⟨⟨by norm_num, (@C5_performance_score_buckets Unit String).1 (1 / 20) (by norm_num)⟩,
   ⟨rfl, rfl,
    (@C5_performance_score_buckets Unit String).2.2.2.2.2.2.1 emptyModule () 1 rfl rfl⟩⟩

/-- C3: for a loaded module the correctness checker scores
5 × passed / total over every fixture except the performance-only one, with
one recorded outcome per fixture; a non-edge fixture passes exactly when the
call's value equals expected_output; an unloadable module yields score 0 with
a descriptive note. -/
theorem C3_algorithm_scoring [DecidableEq V] (m : PyModule I V)
    (cases : List (Fixture I V)) (h : 0 < (algFixtures cases).length) :
    (evaluateAlgorithm (some m) cases).1
        = 5 * ((algOutcomes m cases).countP outcomePassed : ℚ)
            / (algFixtures cases).length
    ∧ (algOutcomes m cases).length = (algFixtures cases).length
    ∧ (∀ fx ∈ algFixtures cases, fx.name ≠ "edge_case_empty" →
        (outcomePassed (runFixture m fx) = true
          ↔ algCallResult m fx.input = some fx.expected))
    ∧ evaluateAlgorithm (none : Option (PyModule I V)) cases
        = (0, "Could not load credit_rating.py") := by
  refine ⟨?_, by simp [algOutcomes], fun fx _ hne => runFixture_passed_iff m fx hne,
    by simp [evaluateAlgorithm]⟩
  have h0 : (algFixtures cases).length ≠ 0 := Nat.pos_iff_ne_zero.mp h
  simp only [evaluateAlgorithm, algScore, h0, if_false]
  ring

/-- Witness for C3: the fully compliant candidate over the concrete
test-case list. -/
theorem C3_witness :
    0 < (algFixtures rmbsFixtures).length
    ∧ ((evaluateAlgorithm (some goodModule) rmbsFixtures).1
          = 5 * ((algOutcomes goodModule rmbsFixtures).countP outcomePassed : ℚ)
              / (algFixtures rmbsFixtures).length
        ∧ (algOutcomes goodModule rmbsFixtures).length
            = (algFixtures rmbsFixtures).length
        ∧ (∀ fx ∈ algFixtures rmbsFixtures, fx.name ≠ "edge_case_empty" →
            (outcomePassed (runFixture goodModule fx) = true
              ↔ algCallResult goodModule fx.input = some fx.expected))
        ∧ evaluateAlgorithm (none : Option (PyModule ℕ (Option String))) rmbsFixtures
            = (0, "Could not load credit_rating.py")) :=
  ⟨by decide, C3_algorithm_scoring goodModule rmbsFixtures (by decide)⟩

/-- C6: the empty/edge fixture is counted as passed exactly when the resolved
entry point's call on it completes without raising; the returned value plays
no role (two modules whose calls equally complete are counted equally). -/
theorem C6_edge_fixture_pass_iff [DecidableEq V] (m : PyModule I V)
    (fx : Fixture I V) (h : fx.name = "edge_case_empty") :
    outcomePassed (runFixture m fx) = (algCallResult m fx.input).isSome
    ∧ (∀ m' : PyModule I V,
        (algCallResult m' fx.input).isSome = (algCallResult m fx.input).isSome →
        outcomePassed (runFixture m' fx) = outcomePassed (runFixture m fx)) :=
  ⟨runFixture_edge_isSome m fx h, fun m' hm => by
    rw [runFixture_edge_isSome m' fx h, runFixture_edge_isSome m fx h, hm]⟩

/-- Witness for C6: the compliant candidate on the concrete edge fixture. -/
theorem C6_witness :
    edgeFixture.name = "edge_case_empty"
    ∧ (outcomePassed (runFixture goodModule edgeFixture)
          = (algCallResult goodModule edgeFixture.input).isSome
        ∧ ∀ m' : PyModule ℕ (Option String),
            (algCallResult m' edgeFixture.input).isSome
              = (algCallResult goodModule edgeFixture.input).isSome →
            outcomePassed (runFixture m' edgeFixture)
              = outcomePassed (runFixture goodModule edgeFixture)) :=
  ⟨rfl, C6_edge_fixture_pass_iff goodModule edgeFixture rfl⟩

/-- C7: a raise during one fixture's evaluation is recorded as that single
fixture's failure (the outcome `errored`), every other fixture's recorded
outcome is unaffected and still present, and flipping exactly one fixture
from pass to fail lowers the correctness score by exactly
5 / total_fixture_count. -/
theorem C7_fixture_failure_isolation [DecidableEq V] (m₁ m₂ : PyModule I V)
    (cases : List (Fixture I V)) (i : ℕ)
    (hi : i < (algFixtures cases).length)
    (hpass : ((algOutcomes m₁ cases)[i]?).map outcomePassed = some true)
    (hfail : ((algOutcomes m₂ cases)[i]?).map outcomePassed = some false)
    (hagree : ∀ j, j ≠ i → (algOutcomes m₁ cases)[j]? = (algOutcomes m₂ cases)[j]?) :
    algScore m₂ cases = algScore m₁ cases - 5 / (algFixtures cases).length
    ∧ (algOutcomes m₂ cases).length = (algFixtures cases).length
    ∧ (∀ j, j ≠ i → (algOutcomes m₂ cases)[j]? = (algOutcomes m₁ cases)[j]?)
    ∧ (∀ (m : PyModule I V) (fx : Fixture I V) (f : I → CallRes V),
        getAttr m "calculate_credit_rating" = some f →
        f fx.input = CallRes.exn →
        runFixture m fx = FixtureOutcome.errored) := by
  refine ⟨?_, by simp [algOutcomes], fun j hj => (hagree j hj).symm, ?_⟩
  · have hlen : (algOutcomes m₁ cases).length = (algOutcomes m₂ cases).length := by
      simp [algOutcomes]
    have hi₁ : i < (algOutcomes m₁ cases).length := by simpa [algOutcomes] using hi
    have hcount := countP_flip outcomePassed (algOutcomes m₁ cases)
      (algOutcomes m₂ cases) i hlen hi₁ hagree
      (fun a ha => by rw [ha] at hpass; simpa using hpass)
      (fun b hb => by rw [hb] at hfail; simpa using hfail)
    have h0 : (algFixtures cases).length ≠ 0 :=
      Nat.pos_iff_ne_zero.mp (lt_of_le_of_lt (Nat.zero_le i) hi)
    have hT : ((algFixtures cases).length : ℚ) ≠ 0 := Nat.cast_ne_zero.mpr h0
    have hc2 : ((algOutcomes m₂ cases).countP outcomePassed : ℚ)
        = ((algOutcomes m₁ cases).countP outcomePassed : ℚ) - 1 := by
      have := congrArg (Nat.cast (R := ℚ)) hcount
      push_cast at this
      linarith
    simp only [algScore, h0, if_false]
    rw [hc2]
    field_simp
    ring
  · intro m fx f hg hf
    unfold runFixture
    simp [hg, hf]

/-- Witness for C7: the compliant candidate against the candidate that raises
on the empty-pool fixture (index 3 of the non-performance fixtures); the
score drops from 5 to 15/4 = 5 - 5/4. -/
theorem C7_witness :
    (3 < (algFixtures rmbsFixtures).length
      ∧ ((algOutcomes goodModule rmbsFixtures)[3]?).map outcomePassed = some true
      ∧ ((algOutcomes edgeRaisingModule rmbsFixtures)[3]?).map outcomePassed = some false)
    ∧ (algScore edgeRaisingModule rmbsFixtures
          = algScore goodModule rmbsFixtures - 5 / (algFixtures rmbsFixtures).length
        ∧ (algOutcomes edgeRaisingModule rmbsFixtures).length
            = (algFixtures rmbsFixtures).length
        ∧ (∀ j, j ≠ 3 → (algOutcomes edgeRaisingModule rmbsFixtures)[j]?
            = (algOutcomes goodModule rmbsFixtures)[j]?)
        ∧ (∀ (m : PyModule ℕ (Option String)) (fx : Fixture ℕ (Option String))
            (f : ℕ → CallRes (Option String)),
            getAttr m "calculate_credit_rating" = some f →
            f fx.input = CallRes.exn →
            runFixture m fx = FixtureOutcome.errored)) := by
  have hagree : ∀ j, j ≠ 3 →
      (algOutcomes goodModule rmbsFixtures)[j]?
        = (algOutcomes edgeRaisingModule rmbsFixtures)[j]? := by
    intro j hj
    rcases Nat.lt_or_ge j 4 with h4 | h4
    · interval_cases j
      · decide
      · decide
      · decide
      · exact absurd rfl hj
    · rw [List.getElem?_eq_none (by simp [algOutcomes, algFixtures, rmbsFixtures]; omega),
        List.getElem?_eq_none (by simp [algOutcomes, algFixtures, rmbsFixtures]; omega)]
  exact ⟨⟨by decide, by decide, by decide⟩,
    C7_fixture_failure_isolation goodModule edgeRaisingModule rmbsFixtures 3
      (by decide) (by decide) (by decide) hagree⟩

/-- Counterexample to C4 as stated: in a module declaring `zeta_rating`
before `alpha_rating`, both succeeding on the probe input, the code's
fallback resolver picks `alpha_rating` (the first name in the alphabetical
`dir(module)` order), while the claimed declaration-order enumeration would
pick `zeta_rating`. -/
theorem C4_declaration_order_counterexample :
    resolveFallback moduleC4 () = some ("alpha_rating", "B")
    ∧ resolveDeclaredOrder moduleC4 () = some ("zeta_rating", "A")
    ∧ resolveFallback moduleC4 () ≠ resolveDeclaredOrder moduleC4 () :=
  ⟨rfl, rfl, by decide⟩

/-- C4 (amended): when the module lacks `calculate_credit_rating`, the
resolver enumerates the non-underscore-prefixed callables in sorted
(alphabetical) name order — the order `dir(module)` yields — and uses the
first whose call on the fixture input returns without raising; every callable
tried before it raised on the probe input, and `none` is returned only when
every enumerated callable raises. -/
theorem C4_resolver_sorted_first_success (m : PyModule I V) (x : I) :
    (∀ n v, resolveFallback m x = some (n, v) →
      underscoreName n = false
      ∧ (∃ f, getAttr m n = some f ∧ f x = CallRes.ok v)
      ∧ ∃ pre f post, fallbackCallables m = pre ++ (n, f) :: post
          ∧ f x = CallRes.ok v ∧ ∀ p ∈ pre, p.2 x = CallRes.exn)
    ∧ (resolveFallback m x = none → ∀ p ∈ fallbackCallables m, p.2 x = CallRes.exn) := by
  constructor
  · intro n v h
    obtain ⟨pre, f, post, hcs, hok, hpre⟩ := tryCallables_eq_some _ x n v h
    have hmem : (n, f) ∈ fallbackCallables m := by rw [hcs]; simp
    obtain ⟨hu, hg⟩ := mem_fallbackCallables m (n, f) hmem
    exact ⟨hu, ⟨f, hg, hok⟩, pre, f, post, hcs, hok, hpre⟩
  · intro h
    exact tryCallables_eq_none _ x h

/-- Witness for C4 (amended) at the concrete two-callable module. -/
theorem C4_witness :
    resolveFallback moduleC4 () = some ("alpha_rating", "B")
    ∧ (underscoreName "alpha_rating" = false
        ∧ (∃ f, getAttr moduleC4 "alpha_rating" = some f ∧ f () = CallRes.ok "B")
        ∧ ∃ pre f post, fallbackCallables moduleC4 = pre ++ ("alpha_rating", f) :: post
            ∧ f () = CallRes.ok "B" ∧ ∀ p ∈ pre, p.2 () = CallRes.exn) :=
  ⟨rfl, (C4_resolver_sorted_first_success moduleC4 ()).1 "alpha_rating" "B" rfl⟩

/-- C8: every repository contributes exactly one record to the batch result;
a failing evaluation is converted, at the orchestrator boundary, into a
record with overall_score 0 carrying the failure description; a successful
one passes its record through; and the parallel mode (any completion order)
produces a permutation of the sequential records, hence the same one record
per repository. -/
theorem C8_batch_one_record_per_repo (repos : List String) (ev : EvalFun)
    (order : List String) (hperm : order.Perm repos) :
    (evaluateAllSeq repos ev).length = repos.length
    ∧ (∀ (i : ℕ) (hi : i < repos.length) (e : String),
        ev repos[i] = Except.error e →
        (evaluateAllSeq repos ev)[i]? = some ⟨repos[i], 0, some e⟩)
    ∧ (∀ (r : String) (rec : BatchRecord), ev r = Except.ok rec →
        recordOfOutcome r (ev r) = rec)
    ∧ (evaluateAllPar order ev).Perm (evaluateAllSeq repos ev) := by
  refine ⟨by simp [evaluateAllSeq], ?_, ?_, hperm.map _⟩
  · intro i hi e he
    unfold evaluateAllSeq
    rw [List.getElem?_map, List.getElem?_eq_getElem hi]
    simp [recordOfOutcome, he]
  · intro r rec hr
    simp [recordOfOutcome, hr]

/-- Witness for C8: a two-repository batch in which one evaluation raises,
collected in reversed completion order. -/
theorem C8_witness :
    (["beta_repo", "alpha_repo"] : List String).Perm ["alpha_repo", "beta_repo"]
    ∧ ((evaluateAllSeq ["alpha_repo", "beta_repo"]
          (fun r => if r = "beta_repo" then Except.error "boom"
            else Except.ok ⟨r, 5, none⟩)).length
        = (["alpha_repo", "beta_repo"] : List String).length
      ∧ (∀ (i : ℕ) (hi : i < (["alpha_repo", "beta_repo"] : List String).length)
          (e : String),
          (fun r => if r = "beta_repo" then Except.error "boom"
            else Except.ok (⟨r, 5, none⟩ : BatchRecord)) (["alpha_repo", "beta_repo"] : List String)[i]
              = Except.error e →
          (evaluateAllSeq ["alpha_repo", "beta_repo"]
            (fun r => if r = "beta_repo" then Except.error "boom"
              else Except.ok ⟨r, 5, none⟩))[i]?
            = some ⟨(["alpha_repo", "beta_repo"] : List String)[i], 0, some e⟩)
      ∧ (∀ (r : String) (rec : BatchRecord),
          (fun r => if r = "beta_repo" then Except.error "boom"
            else Except.ok (⟨r, 5, none⟩ : BatchRecord)) r = Except.ok rec →
          recordOfOutcome r ((fun r => if r = "beta_repo" then Except.error "boom"
            else Except.ok (⟨r, 5, none⟩ : BatchRecord)) r) = rec)
      ∧ (evaluateAllPar ["beta_repo", "alpha_repo"]
          (fun r => if r = "beta_repo" then Except.error "boom"
            else Except.ok ⟨r, 5, none⟩)).Perm
          (evaluateAllSeq ["alpha_repo", "beta_repo"]
            (fun r => if r = "beta_repo" then Except.error "boom"
              else Except.ok ⟨r, 5, none⟩))) :=
  ⟨by decide,
   C8_batch_one_record_per_repo ["alpha_repo", "beta_repo"]
     (fun r => if r = "beta_repo" then Except.error "boom" else Except.ok ⟨r, 5, none⟩)
     ["beta_repo", "alpha_repo"] (by decide)⟩

/-- C9: the quality score equals exactly the documentation sub-score plus the
validation sub-score, the validation sub-score is 0.5 per distinct pattern
found capped at 2.5, and the complexity sub-score contributes nothing to the
returned score (metrics that change only the complexity sub-score leave the
quality score unchanged). -/
theorem C9_quality_score_composition (qm : QualityMetrics) (found : List Bool) :
    evaluateCodeQuality qm found = qDocScore qm + qValidationScore found
    ∧ qValidationScore found = min (5 / 2) ((found.countP id : ℚ) * (1 / 2))
    ∧ (∀ qm' : QualityMetrics, qDocScore qm' = qDocScore qm →
        evaluateCodeQuality qm' found = evaluateCodeQuality qm found)
    ∧ (∃ a b : QualityMetrics, qComplexityScore a ≠ qComplexityScore b
        ∧ qDocScore a = qDocScore b
        ∧ ∀ fnd : List Bool, evaluateCodeQuality a fnd = evaluateCodeQuality b fnd) := by
  refine ⟨rfl, rfl, ?_, ?_⟩
  · intro qm' h
    simp only [evaluateCodeQuality, h]
  · refine ⟨⟨10, 1, 1, 0, 1, 10, true⟩, ⟨10, 1, 1, 0, 1, 10, false⟩, ?_, rfl, fun _ => rfl⟩
    norm_num [qComplexityScore]

/-- Witness for C9 at concrete metrics and pattern-search results (six of the
eight patterns found, so the cap at 2.5 binds). -/
theorem C9_witness :
    evaluateCodeQuality ⟨10, 1, 1, 0, 1, 10, true⟩
        [true, true, true, true, true, true, false, false]
      = qDocScore ⟨10, 1, 1, 0, 1, 10, true⟩
        + qValidationScore [true, true, true, true, true, true, false, false]
    ∧ qValidationScore [true, true, true, true, true, true, false, false]
        = min (5 / 2)
            ((([true, true, true, true, true, true, false, false] : List Bool).countP id : ℚ)
              * (1 / 2))
    ∧ (∀ qm' : QualityMetrics, qDocScore qm' = qDocScore ⟨10, 1, 1, 0, 1, 10, true⟩ →
        evaluateCodeQuality qm' [true, true, true, true, true, true, false, false]
          = evaluateCodeQuality ⟨10, 1, 1, 0, 1, 10, true⟩
              [true, true, true, true, true, true, false, false])
    ∧ (∃ a b : QualityMetrics, qComplexityScore a ≠ qComplexityScore b
        ∧ qDocScore a = qDocScore b
        ∧ ∀ fnd : List Bool, evaluateCodeQuality a fnd = evaluateCodeQuality b fnd) :=
  C9_quality_score_composition ⟨10, 1, 1, 0, 1, 10, true⟩
    [true, true, true, true, true, true, false, false]

/-- Counterexample to C10 as stated: the search-path registration is not
reverted on every terminating invocation.  With an initially empty sys.path,
a candidate whose import-time code prepends its own entry defeats the
conditional pop (final state ["intruder", "repo_a"] instead of []), and the
early return for an unloadable module spec performs no cleanup at all (final
state ["repo_a"]). -/
theorem C10_sys_path_counterexample :
    sysPathAfterEval [] "repo_a" true (fun p => "intruder" :: p)
        = ["intruder", "repo_a"]
    ∧ sysPathAfterEval [] "repo_a" false (fun p => p) = ["repo_a"]
    ∧ sysPathAfterEval [] "repo_a" true (fun p => "intruder" :: p) ≠ [] :=
  ⟨rfl, rfl, by decide⟩

/-- C10 (amended): on the normal and the caught-exception return paths alike,
the function pops the head of sys.path exactly when it is still the inserted
repository path; hence whenever the module spec is created and the candidate
code leaves sys.path unchanged, the pre-call state is restored. -/
theorem C10_sys_path_restored (orig : List String) (repo : String)
    (eff : List String → List String)
    (heff : eff (repo :: orig) = repo :: orig) :
    sysPathAfterEval orig repo true eff = orig := by
  unfold sysPathAfterEval
  simp [heff]

/-- Witness for C10 (amended): a candidate that does not touch sys.path. -/
theorem C10_witness :
    (fun p => p) ("repo_b" :: ["lib_a"]) = "repo_b" :: ["lib_a"]
    ∧ sysPathAfterEval ["lib_a"] "repo_b" true (fun p => p) = ["lib_a"] :=
  ⟨rfl, C10_sys_path_restored ["lib_a"] "repo_b" (fun p => p) rfl⟩

set_option maxRecDepth 200000 in
/-- C1 is violated by the code: on the concrete 395-character README
`readmeX` (three headers, one code block, three list items, all five key
terms), evaluate_documentation returns 6.0, exceeding the claimed bound 5
(content 5 × 0.6 = 3.0, length 1.0, formatting 1.0 + 0.5 + 0.5 = 2.0). -/
theorem C1_documentation_score_exceeds_five :
    evaluateDocumentation (some readmeX) = 6
    ∧ 5 < evaluateDocumentation (some readmeX) := by
  have hm : docMetrics readmeX = ⟨395, 3, 1, 3, true, true, true, true, true⟩ := by
    decide
  constructor <;>
    · simp only [evaluateDocumentation, docTotalScore, docContentScore,
        docLengthScore, docFormattingScore, boolToNat, hm]
      norm_num

end RMBSEval
